import Mathlib

/-!
Verification of the RAG system core (embedding generator, ChromaDB-backed
vector store manager, RAG orchestrator) against its natural-language
specification.  The Python sources are embedded shallowly:

* numeric values (floats) are idealised as rationals `ℚ`; the transcendental
  primitives `math.sin`, `math.log`, `math.sqrt` and the constant `math.pi`
  are abstracted as a record `MathPrims` of rational functions, shared by the
  code model and the spec model so that structural claims can be settled
  without a floating-point model;
* Python strings are `String` / `List Char`; `str.strip` / `str.lower` are
  modelled by `pyStrip` / `pyLower`;
* fallible calls into external backends (ChromaDB collection, the sentence
  transformer model, the OpenRouter HTTP API) are abstracted as parameters
  returning `Except String α`: `Except.error` models a raised exception;
* Python `try/except` becomes a `match` on the `Except` value.
-/

namespace RagModel

/-- Python whitespace characters recognised by `str.strip()` (ASCII range). -/
def pySpace (c : Char) : Bool :=
  c = ' ' || c = '\t' || c = '\n' || c = '\r' || c = '\x0b' || c = '\x0c'

/-- Model of Python `str.strip()`: drop leading and trailing whitespace. -/
def pyStrip (s : List Char) : List Char :=
  ((s.dropWhile pySpace).reverse.dropWhile pySpace).reverse

/-- Model of Python `str.lower()` (per-character lowering). -/
def pyLower (s : List Char) : List Char :=
  s.map Char.toLower

/-- Scalar metadata values (Python dict values used by the app:
strings, floats such as `timestamp`, ints such as `text_length`). -/
inductive MetaVal where
  | str (s : String)
  | num (q : ℚ)
  | int (n : ℤ)
deriving DecidableEq

/-- A Python metadata dict: insertion-ordered association list. -/
abbrev Metadata := List (String × MetaVal)

/-- Python dict assignment `m[k] = v`: replace in place if the key exists,
otherwise append at the end. -/
def setKey : Metadata → String → MetaVal → Metadata
  | [], k, v => [(k, v)]
  | (k1, v1) :: rest, k, v =>
      if k1 = k then (k1, v) :: rest else (k1, v1) :: setKey rest k v

/-- Python dict read `m.get(k)`. -/
def getKey : Metadata → String → Option MetaVal
  | [], _ => none
  | (k1, v1) :: rest, k => if k1 = k then some v1 else getKey rest k

/-- The transcendental primitives of Python's `math` module, abstracted as
rational functions.  Both the code model and the spec model of the fallback
embedding are parametrised by the same record, so their comparison depends
only on the structure of the two algorithms. -/
structure MathPrims where
  sin : ℚ → ℚ
  log : ℚ → ℚ
  sqrt : ℚ → ℚ
  pi : ℚ

/-! ## Embedding generator (`app/embeddings.py`)

`EmbeddingGenerator._generate_fallback_embeddings` computes, for each text
that is not whitespace-only, a deterministic vector from the SHA-256 digest
of the lowercased stripped text.  The digest (`hashlib.sha256(...).hexdigest()`
read as hex byte-pairs by `int(text_hash[i:i+2], 16)`) is abstracted as a
function `sha : List Char → List ℕ` giving the byte values of the digest. -/

/-- One hash-fed dimension of the fallback embedding, dimension index `d`
(the Python loop body: `base_value * 0.6 + char_value * 0.3 +
length_factor * 0.1`, then `(math.sin(final_value * math.pi * 2) + 1) / 2`). -/
def dimVal (M : MathPrims) (tl : List Char) (hb : List ℕ) (d : ℕ) : ℚ :=
  let base_value : ℚ := (hb.getD d 0 : ℚ) / 255
  let char_value : ℚ := ((tl.getD (d % tl.length) 'a').toNat : ℚ) / 255
  let length_factor : ℚ := M.log ((tl.length : ℚ) + 1) / 10
  (M.sin ((base_value * 0.6 + char_value * 0.3 + length_factor * 0.1) * M.pi * 2) + 1) / 2

/-- One fill dimension of the fallback embedding (the Python `while` body:
`(math.sin((pos * len(text_lower)) / 100.0) + 1) / 2`). -/
def fillVal (M : MathPrims) (tl : List Char) (pos : ℕ) : ℚ :=
  (M.sin (((pos : ℚ) * (tl.length : ℚ)) / 100) + 1) / 2

/-- Number of dimensions fed from the digest: the Python `for` loop runs over
`range(0, min(len(text_hash), embedding_dim * 2), 2)` with a break once
`len(embedding) >= embedding_dim`, producing `min |hb| D` values. -/
def hashCount (hb : List ℕ) (D : ℕ) : ℕ := min hb.length D

/-- The unnormalised fallback vector: hash-fed dimensions followed by the
`while`-loop fill dimensions (`pos` continues from `len(embedding)`). -/
def rawEmbedding (M : MathPrims) (hb : List ℕ) (tl : List Char) (D : ℕ) : List ℚ :=
  (List.range (hashCount hb D)).map (dimVal M tl hb)
    ++ (List.range (D - hashCount hb D)).map (fun j => fillVal M tl (hashCount hb D + j))

/-- The final L2 normalisation of the Python code:
`magnitude = math.sqrt(sum(x * x for x in embedding))`, divide only
`if magnitude > 0`. -/
def l2normalize (M : MathPrims) (v : List ℚ) : List ℚ :=
  let magnitude := M.sqrt ((v.map (fun x => x * x)).sum)
  if 0 < magnitude then v.map (fun x => x / magnitude) else v

/-- The fallback vector for a normalised (lowercased, stripped, non-empty)
text `tl` with digest bytes `hb`: normalise, then `embedding[:embedding_dim]`. -/
def fallbackVector (M : MathPrims) (hb : List ℕ) (tl : List Char) (D : ℕ) : List ℚ :=
  (l2normalize M (rawEmbedding M hb tl D)).take D

/-- The per-text body of `_generate_fallback_embeddings`: whitespace-only
texts map to the zero vector (`[0.0] * self.embedding_dim`); otherwise the
hash-based vector of `text.lower().strip()` is produced. -/
def fallbackEmbedText (M : MathPrims) (sha : List Char → List ℕ) (D : ℕ)
    (text : List Char) : List ℚ :=
  if pyStrip text = [] then List.replicate D 0
  else fallbackVector M (sha (pyStrip (pyLower text))) (pyStrip (pyLower text)) D

/-- `EmbeddingGenerator._generate_fallback_embeddings`: one vector per input
text, in order. -/
def generate_fallback_embeddings (M : MathPrims) (sha : List Char → List ℕ)
    (D : ℕ) (texts : List (List Char)) : List (List ℚ) :=
  texts.map (fallbackEmbedText M sha D)

/-- An `EmbeddingGenerator` instance: dimension, mode flag, the opaque
`self.model.encode` backend for model mode, and the math/hash primitives
used by the fallback algorithm. -/
structure EmbGen where
  embedding_dim : ℕ
  use_fallback : Bool
  encode : List (List Char) → List (List ℚ)
  M : MathPrims
  sha : List Char → List ℕ

/-- `EmbeddingGenerator._generate_model_embeddings` on the success path:
delegate to `self.model.encode` and convert to lists. -/
def generate_model_embeddings (g : EmbGen) (texts : List (List Char)) : List (List ℚ) :=
  g.encode texts

/-- `EmbeddingGenerator.generate_embeddings` (success paths; the non-string
`ValueError` cannot arise in the typed model):
empty input returns `[]`; `processed_texts` strips each text and drops
whitespace-only ones; if nothing remains, a zero vector is returned per
input; fallback mode embeds the ORIGINAL texts, model mode embeds only
`processed_texts`. -/
def generate_embeddings (g : EmbGen) (texts : List (List Char)) : List (List ℚ) :=
  if texts = [] then []
  else
    let processed_texts := (texts.map pyStrip).filter (fun t => !t.isEmpty)
    if processed_texts = [] then
      texts.map (fun _ => List.replicate g.embedding_dim 0)
    else if g.use_fallback then
      generate_fallback_embeddings g.M g.sha g.embedding_dim texts
    else
      generate_model_embeddings g processed_texts

/-! ### Spec model of the fallback algorithm (for the refinement claim)

Modelled from the spec: §4.1 fallback algorithm, steps 3-5, written per
output dimension `i` over `range D` exactly as the spec words it. -/

/-- Modelled from the spec: the value of output dimension `i` — hash-fed
`v = 0.6*base + 0.3*char_val + 0.1*length_factor`, `(sin(2*pi*v)+1)/2`,
while hash byte-pairs remain; afterwards `(sin(pos * len(text) / 100)+1)/2`. -/
def specDim (M : MathPrims) (hb : List ℕ) (tl : List Char) (i : ℕ) : ℚ :=
  if i < hb.length then
    (M.sin (2 * M.pi *
      (0.6 * ((hb.getD i 0 : ℚ) / 255)
        + 0.3 * (((tl.getD (i % tl.length) 'a').toNat : ℚ) / 255)
        + 0.1 * (M.log ((tl.length : ℚ) + 1) / 10))) + 1) / 2
  else
    (M.sin (((i : ℚ) * (tl.length : ℚ)) / 100) + 1) / 2

/-- Modelled from the spec: step 5, "L2-normalize the full D-vector; if
magnitude is zero, leave as-is". -/
def l2normalizeSpec (M : MathPrims) (v : List ℚ) : List ℚ :=
  let magnitude := M.sqrt ((v.map (fun x => x * x)).sum)
  if magnitude = 0 then v else v.map (fun x => x / magnitude)

/-- Modelled from the spec: the full D-dimensional fallback vector of the
normalised text `tl`. -/
def fallbackVectorSpec (M : MathPrims) (hb : List ℕ) (tl : List Char) (D : ℕ) : List ℚ :=
  l2normalizeSpec M ((List.range D).map (specDim M hb tl))

/-! ## Vector store manager (`app/database.py`)

`ChromaDBManager` wraps an external `chromadb` collection.  The collection
is abstracted as a record `BackendOps σ` of possibly raising operations over
a backend state `σ`; reads leave the state unchanged, mutations return the
new state on success. -/

/-- `ChromaDBManager._generate_document_id`.  The Python function computes
`content = f"{text}:{hash(str(metadata))}"` and then ends WITHOUT a return
statement, so it returns `None` (modelled as `none`); the computed `content`
is discarded.  `pyhash` abstracts Python's `hash(str(metadata))`. -/
def generate_document_id (pyhash : Metadata → ℤ) (text : String)
    (metadata : Metadata) : Option String :=
  let _content := text ++ ":" ++ toString (pyhash metadata)
  none

/-- Result of `collection.get(ids=[doc_id], include=[...])`: parallel lists,
with `include`-dependent fields possibly absent (`None`). -/
structure GetResult where
  ids : List String
  documents : Option (List String)
  metadatas : Option (List Metadata)
  embeddings : Option (List (List ℚ))

/-- Keyword arguments accumulated by `ChromaDBManager.update_document` and
passed to `collection.update`. -/
structure UpdateParams where
  documents : Option (List String)
  embeddings : Option (List (List ℚ))
  metadatas : Option (List Metadata)

/-- The external ChromaDB collection interface as used by the manager.
`Except.error` models a raised backend exception. -/
structure BackendOps (σ : Type) where
  getIds : σ → String → Except String (List String)
  getFull : σ → String → Except String GetResult
  updateOp : σ → String → UpdateParams → Except String σ
  deleteOp : σ → String → Except String σ

/-- `ChromaDBManager._document_exists`: `len(result.get("ids", [])) > 0`,
with any exception caught and turned into `False`. -/
def document_exists (B : BackendOps σ) (st : σ) (doc_id : String) : Bool :=
  match B.getIds st doc_id with
  | .ok ids => decide (0 < ids.length)
  | .error _ => false

/-- The metadata re-stamping inside `update_document` when a metadata dict is
passed: `metadata["timestamp"] = time.time()`, and `if text:` also
`metadata["text_length"] = len(text)`. -/
def restampMetadata (metadata : Metadata) (text : Option String) (now : ℚ) : Metadata :=
  let m1 := setKey metadata "timestamp" (.num now)
  match text with
  | some t => if t = "" then m1 else setKey m1 "text_length" (.int t.length)
  | none => m1

/-- The `update_params` dict built by `update_document` from the optional
arguments (each provided field is wrapped in a singleton list). -/
def buildUpdateParams (text : Option String) (embedding : Option (List ℚ))
    (metadata : Option Metadata) (now : ℚ) : UpdateParams :=
  { documents := text.map (fun t => [t])
    embeddings := embedding.map (fun e => [e])
    metadatas := metadata.map (fun m => [restampMetadata m text now]) }

/-- `ChromaDBManager.update_document`: inside a `try/except` returning
`False` on any exception — `False` if the id does not exist, otherwise
`collection.update(ids=[doc_id], **update_params)` and `True` on success.
Returns the resulting backend state alongside the boolean. -/
def update_document (B : BackendOps σ) (st : σ) (doc_id : String)
    (text : Option String) (embedding : Option (List ℚ))
    (metadata : Option Metadata) (now : ℚ) : Bool × σ :=
  if document_exists B st doc_id then
    match B.updateOp st doc_id (buildUpdateParams text embedding metadata now) with
    | .ok st2 => (true, st2)
    | .error _ => (false, st)
  else (false, st)

/-- `ChromaDBManager.delete_document`: same `try/except` shape as
`update_document`, with `collection.delete(ids=[doc_id])`. -/
def delete_document (B : BackendOps σ) (st : σ) (doc_id : String) : Bool × σ :=
  if document_exists B st doc_id then
    match B.deleteOp st doc_id with
    | .ok st2 => (true, st2)
    | .error _ => (false, st)
  else (false, st)

/-- The `doc_data` dict assembled by `ChromaDBManager.get_document`. -/
structure DocData where
  id : String
  document : Option String
  metadata : Option Metadata
  embedding : Option (List ℚ)
deriving DecidableEq

/-- `ChromaDBManager.get_document`: `None` if `result.get("ids")` is falsy or
any exception is raised; otherwise each field is filled from the first
element of the corresponding list when that list is truthy. -/
def get_document (B : BackendOps σ) (st : σ) (doc_id : String) : Option DocData :=
  match B.getFull st doc_id with
  | .error _ => none
  | .ok r =>
    if r.ids = [] then none
    else some
      { id := r.ids.headD ""
        document := match r.documents with | some (d :: _) => some d | _ => none
        metadata := match r.metadatas with | some (m :: _) => some m | _ => none
        embedding := match r.embeddings with | some (e :: _) => some e | _ => none }

/-- `MAX_SEARCH_DOCUMENTS` from `app/database.py`. -/
def MAX_SEARCH_DOCUMENTS : ℤ := 50

/-- The clamp in `ChromaDBManager.search`:
`n_results = max(1, min(n_results, MAX_SEARCH_DOCUMENTS))`.
Python ints are modelled as `ℤ` so that negative requests are representable. -/
def clampNResults (n_results : ℤ) : ℤ :=
  max 1 (min n_results MAX_SEARCH_DOCUMENTS)

/-- Raw result of `collection.query`: outer list per query embedding. -/
structure QueryRaw where
  documents : List (List String)
  distances : List (List ℚ)
  metadatas : List (List Metadata)
  ids : List (List String)

/-- The extraction `xs[0] if xs and xs[0] else []` used on each field of the
query result. -/
def firstOrEmpty (xs : List (List α)) : List α :=
  match xs with
  | [] => []
  | x :: _ => if x.isEmpty then [] else x

/-- The `search_results` dict returned by `ChromaDBManager.search`. -/
structure SearchOut where
  documents : List String
  distances : List ℚ
  metadatas : List Metadata
  ids : List String

/-- `ChromaDBManager.search`: clamp `n_results`, query the backend with the
clamped count, extract the first row of each field; a backend exception is
re-raised as `RuntimeError(f"Search failed: {e}")`. -/
def db_search (query : List ℚ → ℤ → Except String QueryRaw)
    (query_embedding : List ℚ) (n_results : ℤ) : Except String SearchOut :=
  let n := clampNResults n_results
  match query query_embedding n with
  | .error e => .error ("Search failed: " ++ e)
  | .ok results => .ok
      { documents := firstOrEmpty results.documents
        distances := firstOrEmpty results.distances
        metadatas := firstOrEmpty results.metadatas
        ids := firstOrEmpty results.ids }

/-! ### Concrete collection model (for the update/get scenario claims)

Modelled from the spec: the `chromadb` library itself is outside `src/`;
§4.2/§6 describe the persisted layout — "a single local collection keyed by
deterministic content-hash ids; each record holds text, vector, and a
metadata map".  `chromaBackend` realises `BackendOps` over that layout:
`get` returns the record fields of an existing id (empty lists otherwise),
`update` overwrites exactly the provided fields, `delete` removes the id. -/

structure StoredDoc where
  text : String
  embedding : List ℚ
  metadata : Metadata
deriving DecidableEq

abbrev Store := List (String × StoredDoc)

def storeLookup : Store → String → Option StoredDoc
  | [], _ => none
  | (k, v) :: rest, doc_id => if k = doc_id then some v else storeLookup rest doc_id

def storeSet : Store → String → StoredDoc → Store
  | [], doc_id, v => [(doc_id, v)]
  | (k, v1) :: rest, doc_id, v =>
      if k = doc_id then (k, v) :: rest else (k, v1) :: storeSet rest doc_id v

def storeErase : Store → String → Store
  | [], _ => []
  | (k, v1) :: rest, doc_id =>
      if k = doc_id then rest else (k, v1) :: storeErase rest doc_id

/-- Modelled from the spec: a well-behaved ChromaDB collection over `Store`
(reads never raise; `update` on a missing id raises, but the manager guards
every call with `_document_exists`). -/
def chromaBackend : BackendOps Store where
  getIds st doc_id :=
    .ok (match storeLookup st doc_id with | some _ => [doc_id] | none => [])
  getFull st doc_id :=
    .ok (match storeLookup st doc_id with
      | some d =>
        { ids := [doc_id], documents := some [d.text]
          metadatas := some [d.metadata], embeddings := some [d.embedding] }
      | none =>
        { ids := [], documents := some [], metadatas := some [], embeddings := some [] })
  updateOp st doc_id p :=
    match storeLookup st doc_id with
    | none => .error "update of nonexistent id"
    | some d => .ok (storeSet st doc_id
        { text := match p.documents with | some (t :: _) => t | _ => d.text
          embedding := match p.embeddings with | some (e :: _) => e | _ => d.embedding
          metadata := match p.metadatas with | some (m :: _) => m | _ => d.metadata })
  deleteOp st doc_id :=
    match storeLookup st doc_id with
    | none => .error "delete of nonexistent id"
    | some _ => .ok (storeErase st doc_id)

/-! ## RAG orchestrator (`app/rag.py`) -/

/-- Python's `round` with ties to even, on the integer scale. -/
def roundHalfEven (q : ℚ) : ℤ :=
  if q - ⌊q⌋ = 1 / 2 then (if ⌊q⌋ % 2 = 0 then ⌊q⌋ else ⌊q⌋ + 1) else round q

/-- Python's `round(q, ndigits)` idealised over `ℚ` (banker's rounding at the
requested decimal scale). -/
def pyRound (ndigits : ℕ) (q : ℚ) : ℚ :=
  (roundHalfEven (q * (10 : ℚ) ^ ndigits) : ℚ) / (10 : ℚ) ^ ndigits

/-- The distance-to-similarity conversion in `RAGPipeline._format_sources`:
`similarity_score = max(0.0, 1.0 - (distance / 2.0))`. -/
def similarity_score (distance : ℚ) : ℚ :=
  max 0 (1 - distance / 2)

/-- One formatted source dict: `{"content": ..., "score": round(sim, 3),
"metadata": ...}`. -/
structure SourceEntry where
  content : String
  score : ℚ
  metadata : Metadata
deriving DecidableEq

/-- `RAGPipeline._format_sources`: zip documents, metadatas and distances
(truncating to the shortest, as Python `zip` does) and score each. -/
def format_sources (documents : List String) (metadatas : List Metadata)
    (distances : List ℚ) : List SourceEntry :=
  ((documents.zip metadatas).zip distances).map (fun x =>
    { content := x.1.1
      score := pyRound 3 (similarity_score x.2)
      metadata := x.1.2 })

/-- The Answer dict produced by `RAGPipeline.generate_answer`. -/
structure Answer where
  answer : String
  sources : List SourceEntry
  model_used : String
  tokens_used : ℕ
  processing_time : ℚ
  context_documents_found : ℕ
deriving DecidableEq

/-- `RAGPipeline._create_error_response`: the standardized error Answer. -/
def create_error_response (model_slug : String) (error_message : String) : Answer :=
  { answer := "Error: " ++ error_message
    sources := []
    model_used := model_slug
    tokens_used := 0
    processing_time := 0
    context_documents_found := 0 }

/-- `RAGPipeline._generate_mock_answer` (Python `question[:100]` is
`String.take 100`). -/
def generate_mock_answer (question : String) (context_docs : List String) : String :=
  if !context_docs.isEmpty then
    "Based on the retrieved context, I found " ++ toString context_docs.length
      ++ " relevant document(s) related to your question: \"" ++ question.take 100
      ++ "...\"\n\nContext summary: The documents contain information that appears relevant to your query.\n\nNote: This is a simulated response because no OpenRouter API key was provided. In a real deployment, this would contain an AI-generated answer based on the context documents."
  else
    "I couldn\x27t find any relevant documents in the database for your question: \""
      ++ question.take 100
      ++ "...\"\n\nNote: This is a simulated response because no OpenRouter API key was provided. In a real deployment, this would contain an AI-generated answer."

/-- One collaborator call made by the pipeline (recorded so that
"short-circuits without calling any collaborator" is expressible). -/
inductive RagCall where
  | embedCall (texts : List String)
  | searchCall (query_embedding : List ℚ) (n_results : ℤ)
  | apiCall (question : String) (context_docs : List String)
deriving DecidableEq

/-- A `RAGPipeline` instance: the injected collaborators
(`embedding_generator.generate_embeddings`, `db_manager.search`,
`_call_openrouter_api`), the mock-mode flag, the model slug, and the
end-to-end wall-clock time observed for a successful request. -/
structure RagEnv where
  generate_embeddings_fn : List String → Except String (List (List ℚ))
  search_fn : List ℚ → ℤ → Except String SearchOut
  call_api_fn : String → List String → Except String (String × ℕ)
  use_mock_llm : Bool
  model_slug : String
  elapsed : ℚ

/-- The success-path response assembly at the end of
`RAGPipeline.generate_answer` (`processing_time = round(elapsed, 2)`). -/
def assembleResponse (E : RagEnv) (sr : SearchOut) (answer : String)
    (tokens_used : ℕ) : Answer :=
  { answer := answer
    sources := format_sources sr.documents sr.metadatas sr.distances
    model_used := E.model_slug
    tokens_used := tokens_used
    processing_time := pyRound 2 E.elapsed
    context_documents_found := sr.documents.length }

/-- The body of the `try:` block of `RAGPipeline.generate_answer`, together
with the list of collaborator calls it makes.  `Except.error` is an
exception propagating to the top-level `except`; note that the empty-question
check RETURNS an error response rather than raising.  `[question][0]` on an
empty embeddings list raises `IndexError` ("list index out of range"). -/
def generate_answer_body (E : RagEnv) (question : String) (max_results : ℤ) :
    Except String Answer × List RagCall :=
  if question = "" ∨ pyStrip question.data = [] then
    (.ok (create_error_response E.model_slug "Question cannot be empty"), [])
  else
    match E.generate_embeddings_fn [question] with
    | .error e => (.error e, [.embedCall [question]])
    | .ok embs =>
      match embs with
      | [] => (.error "list index out of range", [.embedCall [question]])
      | query_embedding :: _ =>
        match E.search_fn query_embedding max_results with
        | .error e =>
            (.error e, [.embedCall [question], .searchCall query_embedding max_results])
        | .ok sr =>
          if E.use_mock_llm then
            (.ok (assembleResponse E sr (generate_mock_answer question sr.documents) 0),
             [.embedCall [question], .searchCall query_embedding max_results])
          else
            match E.call_api_fn question sr.documents with
            | .error e =>
                (.error e,
                 [.embedCall [question], .searchCall query_embedding max_results,
                  .apiCall question sr.documents])
            | .ok (answer, tokens_used) =>
                (.ok (assembleResponse E sr answer tokens_used),
                 [.embedCall [question], .searchCall query_embedding max_results,
                  .apiCall question sr.documents])

/-- `RAGPipeline.generate_answer`: the whole body runs under
`try/except Exception`, and any exception is converted by
`_create_error_response(f"Failed to generate answer: {str(e)}")`. -/
def generate_answer (E : RagEnv) (question : String) (max_results : ℤ) :
    Answer × List RagCall :=
  match generate_answer_body E question max_results with
  | (.ok a, calls) => (a, calls)
  | (.error e, calls) =>
      (create_error_response E.model_slug ("Failed to generate answer: " ++ e), calls)

/-! ## Concrete fixtures for witnesses and counterexamples -/

/-- A concrete instantiation of the math primitives (sufficient for claims
whose truth does not depend on the analytic behaviour of `sin`/`log`). -/
def mathFix : MathPrims :=
  { sin := fun x => x, log := fun x => x, sqrt := fun _ => 0, pi := 3 }

/-- A concrete digest oracle: 32 byte values, as SHA-256 produces. -/
def shaFix : List Char → List ℕ := fun _ => List.range 32

/-- A fallback-mode generator instance (dimension 384, as in the source). -/
def fbGen : EmbGen :=
  { embedding_dim := 384, use_fallback := true
    encode := fun ts => ts.map (fun _ => List.replicate 384 1)
    M := mathFix, sha := shaFix }

/-- A model-mode generator instance whose `encode` backend returns one
vector per input, as a sentence-transformer model does. -/
def modelGen : EmbGen :=
  { embedding_dim := 384, use_fallback := false
    encode := fun ts => ts.map (fun _ => List.replicate 384 1)
    M := mathFix, sha := shaFix }

/-- A mixed batch: one non-whitespace text and one whitespace-only text. -/
def mixedTexts : List (List Char) := [['a'], [' ']]

/-- A store with one document whose metadata carries `timestamp = 100`. -/
def c3Store : Store :=
  [("d1", { text := "old", embedding := [1]
            metadata := [("timestamp", .num 100), ("text_length", .int 3)] })]

/-- `c3Store` after `update_document` with only a new text. -/
def c3StoreAfter : Store :=
  [("d1", { text := "new text", embedding := [1]
            metadata := [("timestamp", .num 100), ("text_length", .int 3)] })]

/-- A backend over a trivial state in which every operation raises. -/
def failBackend : BackendOps Unit :=
  { getIds := fun _ _ => .error "db down"
    getFull := fun _ _ => .error "db down"
    updateOp := fun _ _ _ => .error "db down"
    deleteOp := fun _ _ => .error "db down" }

/-- A query backend returning no results (trivially returns at most the
requested number of documents). -/
def emptyQueryFn : List ℚ → ℤ → Except String QueryRaw :=
  fun _ _ => .ok { documents := [], distances := [], metadatas := [], ids := [] }

/-- A pipeline environment whose embedding generator raises. -/
def failEnv : RagEnv :=
  { generate_embeddings_fn := fun _ => .error "boom"
    search_fn := fun _ _ => .error "searchfail"
    call_api_fn := fun _ _ => .error "apifail"
    use_mock_llm := true
    model_slug := "openai/gpt-3.5-turbo"
    elapsed := 0 }

/-! ## Helper lemmas -/

theorem error_prefix (s : String) : "Error: " ++ s = "Error:" ++ (" " ++ s) := by
  cases s
  rfl

/-! ## Claim theorems -/

/-- C1: the claim says `add_document` computes the document id as a pure
deterministic content hash of `(text, metadata)`.  The code of
`_generate_document_id` computes `content = f"{text}:{hash(str(metadata))}"`
and then falls off the end without a `return`: the id is Python `None` for
EVERY text and metadata (in particular distinct contents collide), although
the function's own annotation and docstring promise a `str`, and
`test_add_document_success` asserts `isinstance(doc_id, str)`. -/
theorem claim_c1_generate_document_id_is_none (pyhash : Metadata → ℤ)
    (text : String) (metadata : Metadata) :
    generate_document_id pyhash text metadata = none ∧
    generate_document_id pyhash "a" [] = generate_document_id pyhash "b" [] :=
  ⟨rfl, rfl⟩

/-- C10: on any backend exception during the existence check or the mutation,
`update_document` and `delete_document` return `false` with the state
untouched, and `get_document` returns `None`; none of them re-raise. -/
theorem claim_c10_backend_errors_degrade {σ : Type} (B : BackendOps σ) (st : σ)
    (doc_id : String) (text : Option String) (embedding : Option (List ℚ))
    (metadata : Option Metadata) (now : ℚ) (msg : String) :
    (B.getIds st doc_id = .error msg →
       update_document B st doc_id text embedding metadata now = (false, st) ∧
       delete_document B st doc_id = (false, st)) ∧
    (B.updateOp st doc_id (buildUpdateParams text embedding metadata now) = .error msg →
       update_document B st doc_id text embedding metadata now = (false, st)) ∧
    (B.deleteOp st doc_id = .error msg →
       delete_document B st doc_id = (false, st)) ∧
    (B.getFull st doc_id = .error msg →
       get_document B st doc_id = none) := by
  refine ⟨fun h => ?_, fun h => ?_, fun h => ?_, fun h => ?_⟩
  · constructor <;> simp [update_document, delete_document, document_exists, h]
  · cases hde : document_exists B st doc_id <;>
      simp [update_document, hde, h]
  · cases hde : document_exists B st doc_id <;>
      simp [delete_document, hde, h]
  · simp [get_document, h]

theorem claim_c10_witness :
    update_document failBackend () "d" none none none 0 = (false, ()) ∧
    delete_document failBackend () "d" = (false, ()) ∧
    get_document failBackend () "d" = none := by
  have h := claim_c10_backend_errors_degrade failBackend () "d" none none none 0 "db down"
  exact ⟨(h.1 rfl).1, (h.1 rfl).2, h.2.2.2 rfl⟩

/-- C7: whatever the collaborators do, an exception raised at any stage of
`generate_answer` is caught at the top level and converted into the
standardized error Answer: `answer` starts with `"Error:"`, `sources` is
empty, `tokens_used`, `processing_time` and `context_documents_found` are
all zero. -/
theorem claim_c7_exceptions_converted (E : RagEnv) (question : String)
    (max_results : ℤ) (e : String) (calls : List RagCall)
    (h : generate_answer_body E question max_results = (.error e, calls)) :
    generate_answer E question max_results =
      (create_error_response E.model_slug ("Failed to generate answer: " ++ e), calls) ∧
    (∃ r, (generate_answer E question max_results).1.answer = "Error:" ++ r) ∧
    (generate_answer E question max_results).1.sources = [] ∧
    (generate_answer E question max_results).1.tokens_used = 0 ∧
    (generate_answer E question max_results).1.processing_time = 0 ∧
    (generate_answer E question max_results).1.context_documents_found = 0 := by
  have hg : generate_answer E question max_results =
      (create_error_response E.model_slug ("Failed to generate answer: " ++ e), calls) := by
    unfold generate_answer
    rw [h]
  refine ⟨hg, ⟨" " ++ ("Failed to generate answer: " ++ e), ?_⟩, ?_, ?_, ?_, ?_⟩ <;>
    rw [hg]
  · exact error_prefix _
  · rfl
  · rfl
  · rfl
  · rfl

theorem claim_c7_witness :
    generate_answer failEnv "hi" 3 =
      (create_error_response "openai/gpt-3.5-turbo" ("Failed to generate answer: " ++ "boom"),
       [RagCall.embedCall ["hi"]]) :=
  (claim_c7_exceptions_converted failEnv "hi" 3 "boom" [RagCall.embedCall ["hi"]] rfl).1

/-- C8: an empty-after-trimming question short-circuits `generate_answer` to
the standardized error Answer without a single collaborator call (the
recorded call list is empty): `answer` begins with `"Error:"`, `sources` is
empty, and `tokens_used` and `processing_time` are zero. -/
theorem claim_c8_empty_question_short_circuits (E : RagEnv) (question : String)
    (max_results : ℤ) (h : pyStrip question.data = []) :
    generate_answer E question max_results =
      (create_error_response E.model_slug "Question cannot be empty", []) ∧
    (∃ r, (create_error_response E.model_slug "Question cannot be empty").answer
            = "Error:" ++ r) ∧
    (create_error_response E.model_slug "Question cannot be empty").sources = [] ∧
    (create_error_response E.model_slug "Question cannot be empty").tokens_used = 0 ∧
    (create_error_response E.model_slug "Question cannot be empty").processing_time = 0 := by
  have hb : generate_answer_body E question max_results =
      (.ok (create_error_response E.model_slug "Question cannot be empty"), []) := by
    unfold generate_answer_body
    exact if_pos (Or.inr h)
  refine ⟨?_, ⟨" " ++ "Question cannot be empty", error_prefix _⟩, rfl, rfl, rfl⟩
  unfold generate_answer
  rw [hb]

theorem claim_c8_witness :
    generate_answer failEnv "   " 3 =
      (create_error_response "openai/gpt-3.5-turbo" "Question cannot be empty", []) :=
  (claim_c8_empty_question_short_circuits failEnv "   " 3 (by decide)).1

theorem floor_le_roundHalfEven (q : ℚ) : ⌊q⌋ ≤ roundHalfEven q := by
  unfold roundHalfEven
  split
  · split
    · exact le_refl _
    · omega
  · rw [round_eq]
    exact Int.floor_le_floor (by linarith)

theorem roundHalfEven_le_ceil (q : ℚ) : roundHalfEven q ≤ ⌈q⌉ := by
  unfold roundHalfEven
  split
  · next h =>
    have hlt : (⌊q⌋ : ℚ) < q := by
      have h2 := Int.floor_le q
      linarith
    have h3 : ⌊q⌋ < ⌈q⌉ := by
      have hc := Int.le_ceil q
      exact_mod_cast lt_of_lt_of_le hlt hc
    split
    · omega
    · omega
  · rw [round_eq]
    calc ⌊q + 1 / 2⌋ ≤ ⌊(⌈q⌉ : ℚ) + 1 / 2⌋ :=
          Int.floor_le_floor (by linarith [Int.le_ceil q])
      _ = ⌈q⌉ + ⌊(1 / 2 : ℚ)⌋ := Int.floor_int_add _ _
      _ = ⌈q⌉ := by norm_num

theorem roundHalfEven_nonneg (q : ℚ) (h : 0 ≤ q) : 0 ≤ roundHalfEven q :=
  le_trans (Int.floor_nonneg.mpr h) (floor_le_roundHalfEven q)

theorem roundHalfEven_le_of_le (q : ℚ) (n : ℤ) (h : q ≤ n) : roundHalfEven q ≤ n :=
  le_trans (roundHalfEven_le_ceil q) (Int.ceil_le.mpr h)

theorem pyRound3_mem_unit (x : ℚ) (h0 : 0 ≤ x) (h1 : x ≤ 1) :
    0 ≤ pyRound 3 x ∧ pyRound 3 x ≤ 1 := by
  unfold pyRound
  constructor
  · apply div_nonneg _ (by norm_num)
    exact_mod_cast roundHalfEven_nonneg _ (by positivity)
  · rw [div_le_one (by norm_num)]
    have h2 : roundHalfEven (x * (10 : ℚ) ^ 3) ≤ (1000 : ℤ) := by
      apply roundHalfEven_le_of_le
      push_cast
      nlinarith
    calc (roundHalfEven (x * (10 : ℚ) ^ 3) : ℚ) ≤ (1000 : ℚ) := by exact_mod_cast h2
      _ = (10 : ℚ) ^ 3 := by norm_num

theorem similarity_score_nonneg (d : ℚ) : 0 ≤ similarity_score d :=
  le_max_left 0 _

theorem similarity_score_le_one (d : ℚ) (h : 0 ≤ d) : similarity_score d ≤ 1 := by
  unfold similarity_score
  apply max_le (by norm_num)
  linarith

/-- C6: the source formatting converts each retrieved distance `d` to the
similarity `max(0, 1 - d/2)` (rounded to 3 digits for the reported score):
similarity is `1` at `d = 0`, `0` at `d = 2` and still `0` (clamped) at
`d = 4`, it is never negative, and for nonnegative distances every reported
score lies in `[0, 1]`. -/
theorem claim_c6_distance_to_similarity :
    similarity_score 0 = 1 ∧ similarity_score 2 = 0 ∧ similarity_score 4 = 0 ∧
    (∀ d : ℚ, 0 ≤ similarity_score d) ∧
    (∀ d : ℚ, 0 ≤ d → similarity_score d ≤ 1) ∧
    (∀ documents metadatas distances (s : SourceEntry),
       s ∈ format_sources documents metadatas distances →
       ∃ d ∈ distances, s.score = pyRound 3 (similarity_score d)) ∧
    (∀ documents metadatas distances (s : SourceEntry),
       (∀ d ∈ distances, 0 ≤ d) →
       s ∈ format_sources documents metadatas distances →
       0 ≤ s.score ∧ s.score ≤ 1) := by
  refine ⟨by simp [similarity_score], by simp [similarity_score],
    by norm_num [similarity_score], similarity_score_nonneg,
    similarity_score_le_one, ?_, ?_⟩
  · intro documents metadatas distances s hs
    rcases List.mem_map.mp hs with ⟨x, hx, rfl⟩
    obtain ⟨⟨c, m⟩, d⟩ := x
    exact ⟨d, (List.of_mem_zip hx).2, rfl⟩
  · intro documents metadatas distances s hpos hs
    rcases List.mem_map.mp hs with ⟨x, hx, rfl⟩
    obtain ⟨⟨c, m⟩, d⟩ := x
    have hd : d ∈ distances := (List.of_mem_zip hx).2
    exact pyRound3_mem_unit _ (similarity_score_nonneg d)
      (similarity_score_le_one d (hpos d hd))

theorem claim_c6_witness :
    0 ≤ pyRound 3 (similarity_score 2) ∧ pyRound 3 (similarity_score 2) ≤ 1 :=
  claim_c6_distance_to_similarity.2.2.2.2.2.2 ["x"] [[]] [2]
    ({ content := "x", score := pyRound 3 (similarity_score 2), metadata := [] })
    (by intro d hd; simp at hd; subst hd; norm_num) (List.Mem.head _)

/-- C9: `search` clamps the requested result count to `[1, 50]` before
querying: the clamped value is always in `[1, 50]`, a request for `100` is
clamped to `50` (so a backend that honours the requested count returns at
most 50 results), and any request below `1` queries for exactly 1 result. -/
theorem claim_c9_search_clamps (query : List ℚ → ℤ → Except String QueryRaw)
    (query_embedding : List ℚ) (n_results : ℤ)
    (hq : ∀ e k rr, query e k = .ok rr → (firstOrEmpty rr.documents).length ≤ k.toNat) :
    (1 ≤ clampNResults n_results ∧ clampNResults n_results ≤ 50) ∧
    clampNResults 100 = 50 ∧
    (n_results ≤ 0 → clampNResults n_results = 1) ∧
    (∀ out, db_search query query_embedding n_results = .ok out →
       out.documents.length ≤ 50) ∧
    (n_results ≤ 0 →
       db_search query query_embedding n_results = db_search query query_embedding 1) := by
  have hclamp : 1 ≤ clampNResults n_results ∧ clampNResults n_results ≤ 50 := by
    unfold clampNResults MAX_SEARCH_DOCUMENTS
    omega
  refine ⟨hclamp, by decide, ?_, ?_, ?_⟩
  · intro h
    unfold clampNResults MAX_SEARCH_DOCUMENTS
    omega
  · intro out hout
    simp only [db_search] at hout
    cases hqr : query query_embedding (clampNResults n_results) with
    | error e => rw [hqr] at hout; cases hout
    | ok rr =>
      rw [hqr] at hout
      cases hout
      have hlen := hq _ _ _ hqr
      have h50 := hclamp.2
      show (firstOrEmpty rr.documents).length ≤ 50
      omega
  · intro h
    have h1 : clampNResults n_results = 1 := by
      unfold clampNResults MAX_SEARCH_DOCUMENTS
      omega
    have h2 : clampNResults 1 = 1 := by decide
    simp only [db_search, h1, h2]

theorem claim_c9_witness :
    clampNResults 100 = 50 ∧ clampNResults 0 = 1 ∧
    (∀ out, db_search emptyQueryFn [] 0 = .ok out → out.documents.length ≤ 50) := by
  have h := claim_c9_search_clamps emptyQueryFn [] 0
    (by intro e k rr hok; cases hok; simp [firstOrEmpty])
  exact ⟨h.2.1, h.2.2.1 (le_refl 0), h.2.2.2.1⟩

theorem storeLookup_storeSet_self (st : Store) (doc_id : String) (v : StoredDoc) :
    storeLookup (storeSet st doc_id v) doc_id = some v := by
  induction st with
  | nil => simp [storeSet, storeLookup]
  | cons hd tl ih =>
    obtain ⟨k, v1⟩ := hd
    by_cases hk : k = doc_id
    · simp [storeSet, storeLookup, hk]
    · simp [storeSet, storeLookup, hk, ih]

/-- C3 counterexample: on the one-document store `c3Store` (whose stored
`timestamp` is `100`), a text-only update performed at time `200` succeeds
and the subsequent get shows the new text — but the metadata, including
`timestamp`, is EXACTLY the old one (`100 ≠ 200`): a text-only update does
not re-stamp `timestamp`/`text_length`, because the code only touches the
metadata when a metadata argument is passed. -/
theorem claim_c3_counterexample :
    update_document chromaBackend c3Store "d1" (some "new text") none none 200
      = (true, c3StoreAfter) ∧
    get_document chromaBackend c3StoreAfter "d1" =
      some { id := "d1", document := some "new text"
             metadata := some [("timestamp", .num 100), ("text_length", .int 3)]
             embedding := some [1] } ∧
    getKey [("timestamp", MetaVal.num 100), ("text_length", MetaVal.int 3)] "timestamp"
      = some (.num 100) ∧
    (100 : ℚ) ≠ 200 :=
  ⟨rfl, rfl, rfl, by norm_num⟩

/-- C3 (amended): `update_document` with only a new text on an existing id
returns `true`, and a subsequent `get_document` reflects the new text with
the metadata — including `timestamp` and `text_length` — UNCHANGED (the code
re-stamps them only when a metadata dict is passed); `update_document` on a
nonexistent id returns `false` without raising. -/
theorem claim_c3_text_only_update (st : Store) (doc_id t : String) (now : ℚ)
    (d : StoredDoc) (hd : storeLookup st doc_id = some d) :
    update_document chromaBackend st doc_id (some t) none none now
      = (true, storeSet st doc_id
          { text := t, embedding := d.embedding, metadata := d.metadata }) ∧
    get_document chromaBackend
        (storeSet st doc_id { text := t, embedding := d.embedding, metadata := d.metadata })
        doc_id
      = some { id := doc_id, document := some t
               metadata := some d.metadata, embedding := some d.embedding } ∧
    (∀ (st2 : Store) (id2 : String) t2 e2 m2 now2, storeLookup st2 id2 = none →
       update_document chromaBackend st2 id2 t2 e2 m2 now2 = (false, st2)) := by
  refine ⟨?_, ?_, ?_⟩
  · simp [update_document, document_exists, chromaBackend, buildUpdateParams, hd]
  · simp [get_document, chromaBackend, storeLookup_storeSet_self]
  · intro st2 id2 t2 e2 m2 now2 h
    simp [update_document, document_exists, chromaBackend, h]

theorem claim_c3_witness :
    update_document chromaBackend c3Store "d1" (some "new") none none 500
      = (true, storeSet c3Store "d1"
          { text := "new", embedding := [1]
            metadata := [("timestamp", .num 100), ("text_length", .int 3)] }) ∧
    update_document chromaBackend [] "nope" (some "x") none none 1 = (false, []) := by
  have h := claim_c3_text_only_update c3Store "d1" "new" 500
    { text := "old", embedding := [1]
      metadata := [("timestamp", .num 100), ("text_length", .int 3)] } rfl
  exact ⟨h.1, h.2.2 [] "nope" (some "x") none none 1 rfl⟩

/-- C2 counterexample: in model mode, a batch with one non-whitespace and
one whitespace-only text yields only ONE embedding — `processed_texts` drops
the whitespace-only string before `self.model.encode` is called, so the
output is shorter than the input and carries no zero vector at the dropped
position. -/
theorem claim_c2_counterexample :
    mixedTexts.length = 2 ∧ (generate_embeddings modelGen mixedTexts).length = 1 :=
  ⟨rfl, rfl⟩

/-- C2 (amended): in FALLBACK mode the returned list always has the length
of the input and every whitespace-only string maps to the zero vector of
dimension D at its original position; an all-whitespace batch gets zero
vectors in both modes; but in MODEL mode with at least one non-whitespace
string the output is `encode(processed_texts)` — one embedding per
non-whitespace string, whitespace-only strings dropped. -/
theorem claim_c2_length_and_zero_vectors (g : EmbGen) (texts : List (List Char))
    (hne : texts ≠ []) :
    (g.use_fallback = true →
       (generate_embeddings g texts).length = texts.length ∧
       (∀ (i : ℕ) (t : List Char), texts[i]? = some t → pyStrip t = [] →
          (generate_embeddings g texts)[i]? = some (List.replicate g.embedding_dim (0 : ℚ)))) ∧
    ((texts.map pyStrip).filter (fun t => !t.isEmpty) = [] →
       (generate_embeddings g texts).length = texts.length ∧
       (∀ v ∈ generate_embeddings g texts, v = List.replicate g.embedding_dim 0)) ∧
    (g.use_fallback = false → (texts.map pyStrip).filter (fun t => !t.isEmpty) ≠ [] →
       generate_embeddings g texts
         = g.encode ((texts.map pyStrip).filter (fun t => !t.isEmpty))) := by
  have hbase : generate_embeddings g texts =
      if (texts.map pyStrip).filter (fun t => !t.isEmpty) = [] then
        texts.map (fun _ => List.replicate g.embedding_dim 0)
      else if g.use_fallback then
        generate_fallback_embeddings g.M g.sha g.embedding_dim texts
      else g.encode ((texts.map pyStrip).filter (fun t => !t.isEmpty)) := by
    simp [generate_embeddings, generate_model_embeddings, hne]
  refine ⟨fun hf => ?_, fun hp => ?_, fun hf hp => ?_⟩
  · by_cases hp : (texts.map pyStrip).filter (fun t => !t.isEmpty) = []
    · rw [hbase, if_pos hp]
      refine ⟨by simp, fun i t hi ht => ?_⟩
      have hlt : i < texts.length := by
        rcases List.getElem?_eq_some.mp hi with ⟨h, _⟩
        exact h
      simp [List.getElem?_map, hi, List.getElem?_replicate, hlt]
    · rw [hbase, if_neg hp, if_pos hf]
      refine ⟨by simp [generate_fallback_embeddings], fun i t hi ht => ?_⟩
      simp [generate_fallback_embeddings, List.getElem?_map, hi, fallbackEmbedText, ht]
  · rw [hbase, if_pos hp]
    refine ⟨by simp, fun v hv => ?_⟩
    rcases List.mem_map.mp hv with ⟨t, ht, rfl⟩
    rfl
  · rw [hbase, if_neg hp, if_neg (by rw [hf]; exact Bool.false_ne_true)]

theorem claim_c2_witness :
    (generate_embeddings fbGen mixedTexts).length = 2 ∧
    (generate_embeddings fbGen mixedTexts)[1]? = some (List.replicate 384 (0 : ℚ)) := by
  have h := (claim_c2_length_and_zero_vectors fbGen mixedTexts (by decide)).1 rfl
  exact ⟨h.1, h.2 1 [' '] rfl (by decide)⟩

/-- C5 counterexample: distinct non-empty texts with identical fallback
embeddings.  `"A"` vs `"a"` (case) and `"a"` vs `" a "` (surrounding
whitespace) are distinct non-empty inputs that receive bit-identical
fallback vectors, because the algorithm reads only `text.lower().strip()`. -/
theorem claim_c5_counterexample :
    "A".data ≠ "a".data ∧ "A".data ≠ [] ∧ "a".data ≠ [] ∧ " a ".data ≠ [] ∧
    fallbackEmbedText mathFix shaFix 384 "A".data
      = fallbackEmbedText mathFix shaFix 384 "a".data ∧
    fallbackEmbedText mathFix shaFix 384 "a".data
      = fallbackEmbedText mathFix shaFix 384 " a ".data :=
  ⟨by decide, by decide, by decide, by decide, rfl, rfl⟩

/-- C5 (amended): the fallback embedding is a function of the lowercased,
stripped text only — any two texts that agree after lowering and stripping
(and agree on being whitespace-only) receive identical vectors, for every
dimension, digest oracle and math primitives; distinct vectors are possible
at most for texts that remain distinct after this normalisation. -/
theorem claim_c5_normalized_text_determines (M : MathPrims)
    (sha : List Char → List ℕ) (D : ℕ) (t1 t2 : List Char)
    (hiff : pyStrip t1 = [] ↔ pyStrip t2 = [])
    (hnorm : pyStrip (pyLower t1) = pyStrip (pyLower t2)) :
    fallbackEmbedText M sha D t1 = fallbackEmbedText M sha D t2 := by
  unfold fallbackEmbedText
  by_cases h1 : pyStrip t1 = []
  · rw [if_pos h1, if_pos (hiff.mp h1)]
  · rw [if_neg h1, if_neg (fun h => h1 (hiff.mpr h)), hnorm]

theorem claim_c5_witness :
    fallbackEmbedText mathFix shaFix 384 "Doc One".data
      = fallbackEmbedText mathFix shaFix 384 "  doc one ".data :=
  claim_c5_normalized_text_determines mathFix shaFix 384 "Doc One".data
    "  doc one ".data (by decide) (by decide)

theorem sin_arg_comm (M : MathPrims) (x y z : ℚ) :
    (M.sin ((x * 0.6 + y * 0.3 + z * 0.1) * M.pi * 2) + 1) / 2
      = (M.sin (2 * M.pi * (0.6 * x + 0.3 * y + 0.1 * z)) + 1) / 2 := by
  have h : (x * 0.6 + y * 0.3 + z * 0.1) * M.pi * 2
      = 2 * M.pi * (0.6 * x + 0.3 * y + 0.1 * z) := by ring
  rw [h]

theorem dimVal_eq_specDim (M : MathPrims) (tl : List Char) (hb : List ℕ)
    (i : ℕ) (hi : i < hb.length) :
    dimVal M tl hb i = specDim M hb tl i := by
  simp only [dimVal, specDim, if_pos hi]
  exact sin_arg_comm M _ _ _

theorem specDim_eq_fillVal (M : MathPrims) (hb : List ℕ) (tl : List Char)
    (i : ℕ) (hi : hb.length ≤ i) :
    specDim M hb tl i = fillVal M tl i := by
  simp only [specDim, fillVal, if_neg (by omega : ¬ i < hb.length)]

theorem rawEmbedding_eq_spec (M : MathPrims) (hb : List ℕ) (tl : List Char) (D : ℕ) :
    rawEmbedding M hb tl D = (List.range D).map (specDim M hb tl) := by
  rcases le_total hb.length D with h | h
  · have hk : hashCount hb D = hb.length := min_eq_left h
    conv_rhs => rw [show D = hb.length + (D - hb.length) by omega,
      List.range_add hb.length (D - hb.length), List.map_append, List.map_map]
    unfold rawEmbedding
    rw [hk]
    congr 1
    · exact List.map_congr_left (fun i hi =>
        dimVal_eq_specDim M tl hb i (List.mem_range.mp hi))
    · exact List.map_congr_left (fun j _ =>
        (specDim_eq_fillVal M hb tl (hb.length + j) (by omega)).symm)
  · have hk : hashCount hb D = D := min_eq_right h
    unfold rawEmbedding
    rw [hk]
    simp only [Nat.sub_self, List.range_zero, List.map_nil, List.append_nil]
    exact List.map_congr_left (fun i hi =>
      dimVal_eq_specDim M tl hb i (lt_of_lt_of_le (List.mem_range.mp hi) h))

theorem l2normalize_eq_spec (M : MathPrims) (hsq : ∀ x, 0 ≤ M.sqrt x) (v : List ℚ) :
    l2normalize M v = l2normalizeSpec M v := by
  simp only [l2normalize, l2normalizeSpec]
  rcases eq_or_lt_of_le (hsq ((v.map (fun x => x * x)).sum)) with h | h
  · rw [if_neg (by rw [← h]; exact lt_irrefl 0), if_pos h.symm]
  · rw [if_pos h, if_neg (ne_of_gt h)]

theorem l2normalizeSpec_length (M : MathPrims) (v : List ℚ) :
    (l2normalizeSpec M v).length = v.length := by
  simp only [l2normalizeSpec]
  split <;> simp

/-- C4: the fallback embedding of every non-whitespace text is EXACTLY the
vector prescribed by the spec's algorithm (hash-fed dimensions
`(sin(2*pi*(0.6*base + 0.3*char_val + 0.1*length_factor))+1)/2`, fill
dimensions `(sin(pos*len(text)/100)+1)/2` once the digest byte-pairs are
exhausted, then L2 normalisation that leaves a zero-magnitude vector as-is),
and it has length exactly D.  Both sides share the digest oracle `sha` and
the math primitives `M`; `sqrt` is assumed nonnegative, as the real
`math.sqrt` is. -/
theorem claim_c4_fallback_matches_spec (M : MathPrims) (sha : List Char → List ℕ)
    (D : ℕ) (text : List Char) (hsq : ∀ x, 0 ≤ M.sqrt x)
    (hne : pyStrip text ≠ []) :
    fallbackEmbedText M sha D text
      = fallbackVectorSpec M (sha (pyStrip (pyLower text))) (pyStrip (pyLower text)) D ∧
    (fallbackEmbedText M sha D text).length = D := by
  have heq : ∀ hb tl, fallbackVector M hb tl D = fallbackVectorSpec M hb tl D := by
    intro hb tl
    unfold fallbackVector fallbackVectorSpec
    rw [rawEmbedding_eq_spec, l2normalize_eq_spec M hsq]
    exact List.take_of_length_le (by simp [l2normalizeSpec_length])
  have hlen : ∀ hb tl, (fallbackVectorSpec M hb tl D).length = D := by
    intro hb tl
    simp [fallbackVectorSpec, l2normalizeSpec_length]
  constructor
  · unfold fallbackEmbedText
    rw [if_neg hne]
    exact heq _ _
  · unfold fallbackEmbedText
    rw [if_neg hne, heq _ _]
    exact hlen _ _

theorem claim_c4_witness :
    pyStrip "a".data ≠ [] ∧
    fallbackEmbedText mathFix shaFix 5 "a".data
      = fallbackVectorSpec mathFix (shaFix (pyStrip (pyLower "a".data)))
          (pyStrip (pyLower "a".data)) 5 ∧
    (fallbackEmbedText mathFix shaFix 5 "a".data).length = 5 := by
  have h := claim_c4_fallback_matches_spec mathFix shaFix 5 "a".data
    (fun x => le_refl 0) (by decide)
  exact ⟨by decide, h.1, h.2⟩

end RagModel
